import Mathlib

/-!
Verification of the Summarizer Service (`src/app.py`): a Flask app that
accepts a PDF upload plus an instruction, extracts the PDF text, gates on a
whitespace word count, calls a generative-inference collaborator when under
budget, converts the chosen text to HTML and hands it to a results view via
the session.  External collaborators (PDF extraction, LLM inference) are
modelled as `Except`-valued oracles; the filesystem and session are explicit
state; each observable side effect of the handler is recorded in a trace.
-/

namespace SummarizerApp

/-- Whitespace characters recognised by Python `str.split()` with no
arguments, i.e. the `Py_UNICODE_ISSPACE` set: tab through carriage return,
the file/group/record/unit separators, space, next-line, no-break space,
ogham space mark, the en-quad..hair-space range, line and paragraph
separators, narrow no-break space, medium mathematical space, and
ideographic space. -/
def isPySpace (c : Char) : Bool :=
  let n := c.toNat
  (9 ≤ n && n ≤ 13) || (28 ≤ n && n ≤ 31) || n = 32 || n = 0x85 ||
  n = 0xa0 || n = 0x1680 || (0x2000 ≤ n && n ≤ 0x200a) || n = 0x2028 ||
  n = 0x2029 || n = 0x202f || n = 0x205f || n = 0x3000

/-- Counts maximal runs of non-whitespace characters; the boolean records
whether the scan is currently inside a word. -/
def countWordsAux : List Char → Bool → Nat
  | [], _ => 0
  | c :: cs, inWord =>
    if isPySpace c then countWordsAux cs false
    else (if inWord then 0 else 1) + countWordsAux cs true

/-- `len(combined_text.split())` of `app.py` line 82: the number of
whitespace-delimited words of a string, i.e. the length of the list returned
by Python `str.split()` (maximal non-whitespace runs). -/
def wordCount (s : String) : Nat :=
  countWordsAux s.data false

/-- An uploaded file as the form sees it: only its client-supplied filename
matters for validation. -/
structure FileUpload where
  filename : String
deriving DecidableEq

/-- The data of `UploadForm` (`app.py` lines 46-57): an optional file part
and the `text_input` field; `none` for `text_input` models the field being
absent from the submitted form data, in which case WTForms applies the
declared default. -/
structure FormData where
  pdf_file : Option FileUpload
  text_input : Option String
deriving DecidableEq

/-- `form.text_input.data`: the submitted instruction text, or the field
default `"Summarize the PDF."` when the field was omitted. -/
def text_input_data (form : FormData) : String :=
  form.text_input.getD "Summarize the PDF."

/-- The `FileAllowed(["pdf"], ...)` validator: the lower-cased client
filename must end in `".pdf"` (expressed over the character list so it
reduces by computation). -/
def fileAllowedPdf (f : FileUpload) : Bool :=
  List.isSuffixOf ".pdf".data (f.filename.data.map Char.toLower)

/-- `form.validate_on_submit()`: the submission is valid iff a file part is
present (`FileRequired`) and its filename passes the pdf extension check
(`FileAllowed`).  `text_input` has no validators. -/
def validateOnSubmit (form : FormData) : Bool :=
  match form.pdf_file with
  | some f => fileAllowedPdf f
  | none => false

/-- Observable side effects of one request, in program order. -/
inductive Event where
  | saveFile (name : String)
  | extractCall (name : String)
  | inferCall (prompt : String)
  | sessionSet (key : String) (value : String)
  | removeFile (name : String)
deriving DecidableEq

/-- `true` exactly on inference-collaborator invocations. -/
def isInferCall : Event → Bool
  | Event.inferCall _ => true
  | _ => false

/-- How the request ends: a redirect, a re-render of the form with field
errors, or an unhandled exception surfacing as a server error. -/
inductive Outcome where
  | redirectTo (target : String)
  | renderIndex
  | serverError (msg : String)
deriving DecidableEq

/-- Server-side state touched by the handler: the set of files present on
local storage and the per-user session store. -/
structure ServerState where
  files : List String
  session : List (String × String)
deriving DecidableEq

/-- `session[k] = v`: a dict update, modelled by shadowing the key. -/
def sessionSetKey (sess : List (String × String)) (k v : String) :
    List (String × String) :=
  (k, v) :: sess

/-- `session[k]`: lookup of the most recently stored value for `k`. -/
def sessionGet (sess : List (String × String)) (k : String) : Option String :=
  List.lookup k sess

/-- The external collaborators reachable from the handler:
`PyPDFLoader(filename).load_and_split()` yielding the ordered per-page texts
(or raising), and `model.generate_content(prompt, ...).text` yielding one
completion (or raising). -/
structure Collaborators where
  load_and_split : String → Except String (List String)
  generate_content : String → Except String String

/-- The fixed rejection message of `app.py` line 95. -/
def rejectionMessage : String :=
  "This text is too long for this application's current configuration.\n\nPlease use a shorter text."

/-- The f-string of `app.py` line 88 building the single prompt. -/
def promptText (instruction combined_text : String) : String :=
  instruction ++ " Use information from the PDF to respond.\n\nPDF:\n" ++ combined_text

/-- `response.text.replace("â€¢", "  *")` of `app.py` line 93: every
occurrence of the three-character mis-decoded bullet sequence is replaced,
left to right, by two spaces and an asterisk (structural recursion so it
reduces by computation; the pattern cannot overlap itself). -/
def fixBulletsAux : List Char → List Char
  | 'â' :: '€' :: '¢' :: rest => ' ' :: ' ' :: '*' :: fixBulletsAux rest
  | c :: rest => c :: fixBulletsAux rest
  | [] => []

/-- String-level wrapper for `fixBulletsAux`. -/
def replaceBullets (s : String) : String :=
  ⟨fixBulletsAux s.data⟩

/-- Splits a character list into the chunks separated by non-overlapping
occurrences of a blank line (the two-character sequence of two newlines),
first match taken, mirroring `str.split("\n\n")`; the accumulator holds the
current chunk reversed. -/
def splitBlocksAux : List Char → List Char → List String
  | '\n' :: '\n' :: rest, acc => String.mk acc.reverse :: splitBlocksAux rest []
  | c :: rest, acc => splitBlocksAux rest (c :: acc)
  | [], acc => [String.mk acc.reverse]

/-- Modelled from the spec: the external markdown-to-HTML converter (the
`markdown` library is not part of this repository).  Restricted to the
inputs this development evaluates it on — blocks separated by blank lines,
each either plain inline-free text or an already-rendered raw HTML block —
it wraps plain blocks in paragraph tags, passes raw HTML blocks (those
beginning with an angle bracket) through unchanged, and joins the rendered
blocks with a newline. -/
def markdown (text : String) : String :=
  String.intercalate "\n"
    (((splitBlocksAux text.data []).filter (fun b => b ≠ "")).map
      (fun b =>
        if List.isPrefixOf ['<'] b.data then b else "<p>" ++ b ++ "</p>"))

/-- Lines 96-100 of `app.py`, shared by both branches: convert the chosen
text to HTML, store it in the session under `"markdown_response"`, remove
the temporary file, redirect to the results view. -/
def finishRequest (response_text pdf_temp_filename : String)
    (st : ServerState) (evs : List Event) :
    ServerState × List Event × Outcome :=
  let markdown_response := markdown response_text
  ({ files := st.files.erase pdf_temp_filename,
     session := sessionSetKey st.session "markdown_response" markdown_response },
   evs ++ [Event.sessionSet "markdown_response" markdown_response,
           Event.removeFile pdf_temp_filename],
   Outcome.redirectTo "pdf_results")

/-- The `index` request handler (`app.py` lines 72-102).  `pdf_temp_filename`
stands for the fresh `uuid4` name; collaborator failures propagate as
`Outcome.serverError` with no further effects, mirroring an uncaught Python
exception. -/
def index (c : Collaborators) (form : FormData) (pdf_temp_filename : String)
    (st : ServerState) : ServerState × List Event × Outcome :=
  if validateOnSubmit form then
    let st1 : ServerState := { st with files := pdf_temp_filename :: st.files }
    let evs1 : List Event :=
      [Event.saveFile pdf_temp_filename, Event.extractCall pdf_temp_filename]
    match c.load_and_split pdf_temp_filename with
    | Except.error e => (st1, evs1, Outcome.serverError e)
    | Except.ok pages =>
      let combined_text := String.intercalate "\n\n" pages
      let word_count := wordCount combined_text
      if word_count < 18500 then
        let prompt := promptText (text_input_data form) combined_text
        match c.generate_content prompt with
        | Except.error e =>
          (st1, evs1 ++ [Event.inferCall prompt], Outcome.serverError e)
        | Except.ok t =>
          let response_text := replaceBullets t
          finishRequest response_text pdf_temp_filename st1
            (evs1 ++ [Event.inferCall prompt])
      else
        finishRequest rejectionMessage pdf_temp_filename st1 evs1
  else
    (st, [], Outcome.renderIndex)

/-- A rendered template: its name and the text passed to it. -/
structure Rendered where
  template : String
  response_text : String
deriving DecidableEq

/-- The HTTP methods the results route is registered for
(`app.py` line 105). -/
def pdf_results_methods : List String :=
  ["GET", "POST"]

/-- The `pdf_results` handler (`app.py` lines 105-113): renders the session
value stored under `"markdown_response"`; a missing key raises (`KeyError`),
which propagates as an error. -/
def pdf_results (_method : String) (sess : List (String × String)) :
    Except String Rendered :=
  match sessionGet sess "markdown_response" with
  | some v => Except.ok ⟨"pdf_results.html", v⟩
  | none => Except.error "KeyError: markdown_response"

/-- The HTTP methods that `CSRFProtect` guards by default. -/
def csrfProtectedMethods : List String :=
  ["POST", "PUT", "PATCH", "DELETE"]

/-- A request to `/pdf_results` as the framework dispatches it:
`CSRFProtect(app)` (`app.py` line 43) applies app-wide, so a
state-changing-method request whose CSRF token is missing or invalid
(`csrf_ok = false`) is rejected with a 400 before the view runs; otherwise
the `pdf_results` view handles the request. -/
def pdf_resultsRequest (method : String) (csrf_ok : Bool)
    (sess : List (String × String)) : Except String Rendered :=
  if List.elem method csrfProtectedMethods && !csrf_ok then
    Except.error "400 Bad Request: The CSRF token is missing."
  else
    pdf_results method sess

/-- `n` copies of the two characters of `"w "`: a text of exactly `n`
whitespace-delimited words. -/
def repeatedWords : Nat → List Char
  | 0 => []
  | n + 1 => 'w' :: ' ' :: repeatedWords n

/-- A concrete page text whose word count is exactly the gate threshold. -/
def bigPage : String :=
  ⟨repeatedWords 18500⟩

/-- A collaborator pair whose extraction returns the threshold-sized page. -/
def bigCollab : Collaborators :=
  ⟨fun _ => Except.ok [bigPage], fun _ => Except.ok "resp"⟩

/-- A collaborator pair with small extraction output and total inference. -/
def okCollab : Collaborators :=
  ⟨fun _ => Except.ok ["hello world"], fun _ => Except.ok "resp"⟩

/-- A collaborator pair whose extraction raises. -/
def failCollab : Collaborators :=
  ⟨fun _ => Except.error "PdfReadError", fun _ => Except.ok "resp"⟩

/-- A collaborator pair whose inference output contains the mis-decoded
bullet byte sequence. -/
def bulletCollab : Collaborators :=
  ⟨fun _ => Except.ok ["hello world"], fun _ => Except.ok "â€¢ first point"⟩

/-- A well-formed submission: a pdf file, instruction field omitted. -/
def form0 : FormData :=
  ⟨some ⟨"doc.pdf"⟩, none⟩

/-- An empty server state: no files on disk, empty session. -/
def st0 : ServerState :=
  ⟨[], []⟩

/-- Joining a one-element page list leaves the page unchanged. -/
theorem intercalate_single (s a : String) : String.intercalate s [a] = a :=
  rfl

/-- Each `"w "` pair contributes exactly one word. -/
theorem countWordsAux_repeatedWords (n : Nat) :
    countWordsAux (repeatedWords n) false = n := by
  induction n with
  | zero => rfl
  | succ n ih =>
    have h : countWordsAux (repeatedWords (n + 1)) false
        = 1 + countWordsAux (repeatedWords n) false := rfl
    rw [h, ih, Nat.add_comm]

/-- Unfolding `index` on a submission that fails validation: nothing
happens. -/
theorem index_invalid (c : Collaborators) (form : FormData) (t : String)
    (st : ServerState) (hv : validateOnSubmit form = false) :
    index c form t st = (st, [], Outcome.renderIndex) := by
  simp [index, hv]

/-- Unfolding `index` when extraction raises: the temp file was saved, no
later effect happens, the exception surfaces. -/
theorem index_extract_error (c : Collaborators) (form : FormData) (t : String)
    (st : ServerState) (e : String)
    (hv : validateOnSubmit form = true)
    (hl : c.load_and_split t = Except.error e) :
    index c form t st = ({ st with files := t :: st.files },
      [Event.saveFile t, Event.extractCall t], Outcome.serverError e) := by
  simp [index, hv, hl]

/-- Unfolding `index` on the oversized branch. -/
theorem index_oversized (c : Collaborators) (form : FormData) (t : String)
    (st : ServerState) (pages : List String)
    (hv : validateOnSubmit form = true)
    (hl : c.load_and_split t = Except.ok pages)
    (hw : ¬ wordCount (String.intercalate "\n\n" pages) < 18500) :
    index c form t st =
      finishRequest rejectionMessage t { st with files := t :: st.files }
        [Event.saveFile t, Event.extractCall t] := by
  simp [index, hv, hl, hw]

/-- Unfolding `index` on the inference branch when the collaborator
returns. -/
theorem index_infer_ok (c : Collaborators) (form : FormData) (t : String)
    (st : ServerState) (pages : List String) (r : String)
    (hv : validateOnSubmit form = true)
    (hl : c.load_and_split t = Except.ok pages)
    (hw : wordCount (String.intercalate "\n\n" pages) < 18500)
    (hg : c.generate_content
        (promptText (text_input_data form) (String.intercalate "\n\n" pages))
      = Except.ok r) :
    index c form t st =
      finishRequest (replaceBullets r) t { st with files := t :: st.files }
        [Event.saveFile t, Event.extractCall t,
         Event.inferCall
           (promptText (text_input_data form)
             (String.intercalate "\n\n" pages))] := by
  simp [index, hv, hl, hw, hg, finishRequest]

/-- Unfolding `index` on the inference branch when the collaborator
raises. -/
theorem index_infer_error (c : Collaborators) (form : FormData) (t : String)
    (st : ServerState) (pages : List String) (e : String)
    (hv : validateOnSubmit form = true)
    (hl : c.load_and_split t = Except.ok pages)
    (hw : wordCount (String.intercalate "\n\n" pages) < 18500)
    (hg : c.generate_content
        (promptText (text_input_data form) (String.intercalate "\n\n" pages))
      = Except.error e) :
    index c form t st = ({ st with files := t :: st.files },
      [Event.saveFile t, Event.extractCall t,
       Event.inferCall
         (promptText (text_input_data form)
           (String.intercalate "\n\n" pages))],
      Outcome.serverError e) := by
  simp [index, hv, hl, hw, hg]

/-- The concrete page sits exactly at the gate threshold. -/
theorem wordCount_bigPage : wordCount bigPage = 18500 :=
  countWordsAux_repeatedWords 18500

/-- C1: on a validated upload whose combined extracted text has word count
at least 18500, the handler stores the converted fixed rejection message and
never invokes the inference collaborator; with word count strictly below
18500 the inference branch is taken.  The gate value `wordCount` is a pure
function of the combined text. -/
theorem C1_size_gate (c : Collaborators) (form : FormData) (t : String)
    (st : ServerState) (pages : List String)
    (hv : validateOnSubmit form = true)
    (hl : c.load_and_split t = Except.ok pages) :
    (18500 ≤ wordCount (String.intercalate "\n\n" pages) →
      (∀ p, Event.inferCall p ∉ (index c form t st).2.1) ∧
      (index c form t st).2.1 =
        [Event.saveFile t, Event.extractCall t,
         Event.sessionSet "markdown_response" (markdown rejectionMessage),
         Event.removeFile t] ∧
      (index c form t st).2.2 = Outcome.redirectTo "pdf_results") ∧
    (wordCount (String.intercalate "\n\n" pages) < 18500 →
      ∃ p, Event.inferCall p ∈ (index c form t st).2.1) := by
  constructor
  · intro h
    have hnot : ¬ wordCount (String.intercalate "\n\n" pages) < 18500 := by omega
    rw [index_oversized c form t st pages hv hl hnot]
    refine ⟨fun p => ?_, ?_, ?_⟩ <;> simp [finishRequest]
  · intro h
    cases hg : c.generate_content
        (promptText (text_input_data form) (String.intercalate "\n\n" pages)) with
    | error e =>
      rw [index_infer_error c form t st pages e hv hl h hg]
      exact ⟨promptText (text_input_data form) (String.intercalate "\n\n" pages),
        by simp⟩
    | ok r =>
      rw [index_infer_ok c form t st pages r hv hl h hg]
      exact ⟨promptText (text_input_data form) (String.intercalate "\n\n" pages),
        by simp [finishRequest]⟩

/-- C1 witness: at exactly 18500 extracted words the rejection branch fires
and no inference call appears in the trace. -/
theorem C1_size_gate_witness :
    (∀ p, Event.inferCall p ∉ (index bigCollab form0 "tmpfile" st0).2.1) ∧
    (index bigCollab form0 "tmpfile" st0).2.2 =
      Outcome.redirectTo "pdf_results" := by
  have h :=
    (C1_size_gate bigCollab form0 "tmpfile" st0 [bigPage] (by decide) rfl).1
      (by rw [intercalate_single, wordCount_bigPage])
  exact ⟨h.1, h.2.2⟩

/-- C2: on a validated upload with word count strictly below 18500 the
handler invokes the inference collaborator exactly once, and the single
prompt is the instruction, the fixed preamble, and the full combined text
(the ordered page texts joined by a blank line). -/
theorem C2_single_prompt (c : Collaborators) (form : FormData) (t : String)
    (st : ServerState) (pages : List String)
    (hv : validateOnSubmit form = true)
    (hl : c.load_and_split t = Except.ok pages)
    (hw : wordCount (String.intercalate "\n\n" pages) < 18500) :
    List.filter isInferCall (index c form t st).2.1 =
      [Event.inferCall
        (text_input_data form ++ " Use information from the PDF to respond.\n\nPDF:\n"
          ++ String.intercalate "\n\n" pages)] := by
  cases hg : c.generate_content
      (promptText (text_input_data form) (String.intercalate "\n\n" pages)) with
  | error e =>
    rw [index_infer_error c form t st pages e hv hl hw hg]
    simp [isInferCall, promptText]
  | ok r =>
    rw [index_infer_ok c form t st pages r hv hl hw hg]
    simp [finishRequest, isInferCall, promptText]

/-- C2 witness: a one-page 500-word-free upload with the default
instruction produces exactly one inference call carrying the instruction
and the page text. -/
theorem C2_single_prompt_witness :
    List.filter isInferCall (index okCollab form0 "tmp2" st0).2.1 =
      [Event.inferCall
        ("Summarize the PDF." ++ " Use information from the PDF to respond.\n\nPDF:\n"
          ++ String.intercalate "\n\n" ["hello world"])] :=
  C2_single_prompt okCollab form0 "tmp2" st0 ["hello world"]
    (by decide) rfl (by decide)

/-- C3: on a validated upload whose request completes with the redirect,
the temporary file is saved first, extraction follows it, the last effect
is the removal of the temporary file, and (for a fresh name) the file is
absent from local storage afterwards — on the oversized branch and the
inference branch alike. -/
theorem C3_temp_file_cleanup (c : Collaborators) (form : FormData)
    (t : String) (st : ServerState)
    (hne : t ∉ st.files)
    (hr : (index c form t st).2.2 = Outcome.redirectTo "pdf_results") :
    t ∉ (index c form t st).1.files ∧
    (∃ rest, (index c form t st).2.1
        = Event.saveFile t :: Event.extractCall t :: rest) ∧
    (index c form t st).2.1.getLast? = some (Event.removeFile t) := by
  cases hv : validateOnSubmit form with
  | false =>
    rw [index_invalid c form t st hv] at hr
    exact absurd hr (by simp)
  | true =>
    cases hl : c.load_and_split t with
    | error e =>
      rw [index_extract_error c form t st e hv hl] at hr
      exact absurd hr (by simp)
    | ok pages =>
      by_cases hw : wordCount (String.intercalate "\n\n" pages) < 18500
      · cases hg : c.generate_content
            (promptText (text_input_data form) (String.intercalate "\n\n" pages)) with
        | error e =>
          rw [index_infer_error c form t st pages e hv hl hw hg] at hr
          exact absurd hr (by simp)
        | ok r =>
          rw [index_infer_ok c form t st pages r hv hl hw hg]
          refine ⟨?_,
            ⟨[Event.inferCall
                (promptText (text_input_data form)
                  (String.intercalate "\n\n" pages)),
              Event.sessionSet "markdown_response" (markdown (replaceBullets r)),
              Event.removeFile t], by simp [finishRequest]⟩,
            by simp [finishRequest]⟩
          simpa [finishRequest, List.erase_cons_head] using hne
      · rw [index_oversized c form t st pages hv hl hw]
        refine ⟨?_,
          ⟨[Event.sessionSet "markdown_response" (markdown rejectionMessage),
            Event.removeFile t], by simp [finishRequest]⟩,
          by simp [finishRequest]⟩
        simpa [finishRequest, List.erase_cons_head] using hne

/-- C3 witness: on a concrete completing upload against an empty disk the
temporary file is gone afterwards and the trace is bracketed by the save
and the removal. -/
theorem C3_temp_file_cleanup_witness :
    "tmpA" ∉ (index okCollab form0 "tmpA" st0).1.files ∧
    (∃ rest, (index okCollab form0 "tmpA" st0).2.1
        = Event.saveFile "tmpA" :: Event.extractCall "tmpA" :: rest) ∧
    (index okCollab form0 "tmpA" st0).2.1.getLast?
      = some (Event.removeFile "tmpA") :=
  C3_temp_file_cleanup okCollab form0 "tmpA" st0 (by simp [st0]) (by decide)

/-- C8: when extraction or inference raises on a validated upload (the
request ends in a server error), no cleanup happens: the temporary file is
still on disk, the session is exactly what it was before the request, and
the trace contains neither a session write nor a file removal. -/
theorem C8_no_cleanup_on_failure (c : Collaborators) (form : FormData)
    (t : String) (st : ServerState) (e : String)
    (hs : (index c form t st).2.2 = Outcome.serverError e) :
    (index c form t st).1.files = t :: st.files ∧
    (index c form t st).1.session = st.session ∧
    (∀ k v, Event.sessionSet k v ∉ (index c form t st).2.1) ∧
    Event.removeFile t ∉ (index c form t st).2.1 := by
  cases hv : validateOnSubmit form with
  | false =>
    rw [index_invalid c form t st hv] at hs
    exact absurd hs (by simp)
  | true =>
    cases hl : c.load_and_split t with
    | error e2 =>
      rw [index_extract_error c form t st e2 hv hl]
      exact ⟨rfl, rfl, fun k v => by simp, by simp⟩
    | ok pages =>
      by_cases hw : wordCount (String.intercalate "\n\n" pages) < 18500
      · cases hg : c.generate_content
            (promptText (text_input_data form) (String.intercalate "\n\n" pages)) with
        | error e2 =>
          rw [index_infer_error c form t st pages e2 hv hl hw hg]
          exact ⟨rfl, rfl, fun k v => by simp, by simp⟩
        | ok r =>
          rw [index_infer_ok c form t st pages r hv hl hw hg] at hs
          exact absurd hs (by simp [finishRequest])
      · rw [index_oversized c form t st pages hv hl hw] at hs
        exact absurd hs (by simp [finishRequest])

/-- C8 witness: a concrete upload whose extraction raises leaves the
temporary file on disk and the session untouched. -/
theorem C8_no_cleanup_on_failure_witness :
    (index failCollab form0 "tmpB" st0).1.files = ["tmpB"] ∧
    (index failCollab form0 "tmpB" st0).1.session = [] ∧
    Event.removeFile "tmpB" ∉ (index failCollab form0 "tmpB" st0).2.1 := by
  have h := C8_no_cleanup_on_failure failCollab form0 "tmpB" st0
    "PdfReadError" (by decide)
  exact ⟨h.1, h.2.1, h.2.2.2⟩

/-- C4 counterexample: a submission carrying a pdf file and an explicitly
empty instruction field passes `validate_on_submit` with the instruction
empty — `text_input` has no validators, so non-empty instruction text is
not required by the form. -/
theorem C4_empty_instruction_accepted :
    validateOnSubmit ⟨some ⟨"doc.pdf"⟩, some ""⟩ = true ∧
    text_input_data ⟨some ⟨"doc.pdf"⟩, some ""⟩ = "" := by
  exact ⟨by decide, rfl⟩

/-- C4 amended: the form requires a file whose lower-cased name ends in
".pdf"; the instruction defaults when the field is omitted (but its
non-emptiness is not validated); any submission failing validation is
rejected with no effect at all — no temporary file, no extraction, no
inference. -/
theorem C4_validation (c : Collaborators) (form : FormData) (t : String)
    (st : ServerState)
    (hv : validateOnSubmit form = false) :
    index c form t st = (st, [], Outcome.renderIndex) ∧
    (∀ form2 : FormData, validateOnSubmit form2 = true →
      ∃ f, form2.pdf_file = some f ∧
        List.isSuffixOf ".pdf".data (f.filename.data.map Char.toLower) = true) ∧
    (∀ form3 : FormData, form3.text_input = none →
      text_input_data form3 = "Summarize the PDF.") := by
  refine ⟨index_invalid c form t st hv, fun form2 h2 => ?_, fun form3 h3 => ?_⟩
  · cases hf : form2.pdf_file with
    | none => rw [validateOnSubmit, hf] at h2; exact absurd h2 (by simp)
    | some f =>
      rw [validateOnSubmit, hf] at h2
      exact ⟨f, rfl, h2⟩
  · rw [text_input_data, h3]
    rfl

/-- C4 witness: a submission of a `.txt` file is rejected with an empty
effect trace, and an omitted instruction field defaults. -/
theorem C4_validation_witness :
    index okCollab ⟨some ⟨"notes.txt"⟩, none⟩ "tmpD" st0
      = (st0, [], Outcome.renderIndex) ∧
    text_input_data form0 = "Summarize the PDF." := by
  have h := C4_validation okCollab ⟨some ⟨"notes.txt"⟩, none⟩ "tmpD" st0 (by decide)
  exact ⟨h.1, h.2.2 form0 rfl⟩

/-- C5: the results view renders the value most recently stored in the
session under the fixed key `"markdown_response"`; when the key was never
stored the lookup fails and the request errors rather than being handled
or defaulted. -/
theorem C5_results_view (m : String) (sess : List (String × String)) :
    (∀ v, sessionGet sess "markdown_response" = some v →
      pdf_results m sess = Except.ok ⟨"pdf_results.html", v⟩) ∧
    (sessionGet sess "markdown_response" = none →
      pdf_results m sess = Except.error "KeyError: markdown_response") ∧
    (∀ v, sessionGet (sessionSetKey sess "markdown_response" v)
        "markdown_response" = some v) := by
  refine ⟨fun v hv => ?_, fun hn => ?_, fun v => ?_⟩
  · simp [pdf_results, hv]
  · simp [pdf_results, hn]
  · simp [sessionGet, sessionSetKey, List.lookup]

/-- C5 witness: with a stored result the view renders it; with an empty
session the request errors. -/
theorem C5_results_view_witness :
    pdf_results "GET" [("markdown_response", "<p>hi</p>")]
      = Except.ok ⟨"pdf_results.html", "<p>hi</p>"⟩ ∧
    pdf_results "GET" [] = Except.error "KeyError: markdown_response" :=
  ⟨(C5_results_view "GET" [("markdown_response", "<p>hi</p>")]).1
      "<p>hi</p>" (by decide),
   (C5_results_view "GET" []).2.1 rfl⟩

/-- C6: on every successful POST — validation passed and neither
collaborator raised — the handler stores the converted chosen text in the
session under `"markdown_response"` and responds with the redirect to
`/pdf_results`. -/
theorem C6_redirect_after_store (c : Collaborators) (form : FormData)
    (t : String) (st : ServerState) (pages : List String)
    (hv : validateOnSubmit form = true)
    (hl : c.load_and_split t = Except.ok pages)
    (hi : ∀ p, ∃ r, c.generate_content p = Except.ok r) :
    (index c form t st).2.2 = Outcome.redirectTo "pdf_results" ∧
    ∃ chosen,
      sessionGet (index c form t st).1.session "markdown_response"
        = some (markdown chosen) ∧
      Event.sessionSet "markdown_response" (markdown chosen)
        ∈ (index c form t st).2.1 := by
  by_cases hw : wordCount (String.intercalate "\n\n" pages) < 18500
  · obtain ⟨r, hg⟩ := hi
      (promptText (text_input_data form) (String.intercalate "\n\n" pages))
    rw [index_infer_ok c form t st pages r hv hl hw hg]
    exact ⟨rfl, replaceBullets r,
      by simp [finishRequest, sessionGet, sessionSetKey, List.lookup],
      by simp [finishRequest]⟩
  · rw [index_oversized c form t st pages hv hl hw]
    exact ⟨rfl, rejectionMessage,
      by simp [finishRequest, sessionGet, sessionSetKey, List.lookup],
      by simp [finishRequest]⟩

/-- C6 witness: a concrete successful upload redirects to the results view
with the converted text stored. -/
theorem C6_redirect_after_store_witness :
    (index okCollab form0 "tmpE" st0).2.2 = Outcome.redirectTo "pdf_results" ∧
    ∃ chosen,
      sessionGet (index okCollab form0 "tmpE" st0).1.session "markdown_response"
        = some (markdown chosen) ∧
      Event.sessionSet "markdown_response" (markdown chosen)
        ∈ (index okCollab form0 "tmpE" st0).2.1 :=
  C6_redirect_after_store okCollab form0 "tmpE" st0 ["hello world"]
    (by decide) rfl (fun p => ⟨"resp", rfl⟩)

/-- C7: converting the fixed rejection message yields exactly its
paragraph-wrapped HTML form, so the rendered result contains the converted
equivalent verbatim, and converting the converted output again returns it
unchanged (idempotence on this input). -/
theorem C7_markdown_idempotent_on_rejection :
    markdown rejectionMessage =
      "<p>This text is too long for this application's current configuration.</p>\n<p>Please use a shorter text.</p>"
    ∧ markdown (markdown rejectionMessage) = markdown rejectionMessage := by
  constructor <;> decide

/-- C9 counterexample: with a result stored in the session, a POST to the
results route without a valid CSRF token is rejected with a 400 by the
app-wide `CSRFProtect` before the view runs, while the same request as a
GET renders the stored result — so POST does not behave identically to
GET. -/
theorem C9_post_not_identical_to_get :
    pdf_resultsRequest "POST" false [("markdown_response", "<p>hi</p>")]
      = Except.error "400 Bad Request: The CSRF token is missing." ∧
    pdf_resultsRequest "GET" false [("markdown_response", "<p>hi</p>")]
      = Except.ok ⟨"pdf_results.html", "<p>hi</p>"⟩ ∧
    pdf_resultsRequest "POST" false [("markdown_response", "<p>hi</p>")]
      ≠ pdf_resultsRequest "GET" false [("markdown_response", "<p>hi</p>")] := by
  refine ⟨rfl, rfl, fun h => ?_⟩
  have h2 : (Except.error "400 Bad Request: The CSRF token is missing."
        : Except String Rendered)
      = Except.ok ⟨"pdf_results.html", "<p>hi</p>"⟩ := h
  exact Except.noConfusion h2

/-- C9 amended: the results route is registered for both GET and POST and
the view function itself never consults the method, so a POST carrying a
valid CSRF token renders the stored session result exactly as a GET does;
but a POST without a valid token is rejected with a 400 by the app-wide
`CSRFProtect` before the view runs, while a GET is never CSRF-checked. -/
theorem C9_results_methods :
    (∀ sess csrf_ok, pdf_resultsRequest "GET" csrf_ok sess
        = pdf_results "GET" sess) ∧
    (∀ sess, pdf_resultsRequest "POST" true sess
        = pdf_resultsRequest "GET" true sess) ∧
    (∀ sess, pdf_resultsRequest "POST" false sess
        = Except.error "400 Bad Request: The CSRF token is missing.") ∧
    "GET" ∈ pdf_results_methods ∧ "POST" ∈ pdf_results_methods :=
  ⟨fun _ csrf_ok => by cases csrf_ok <;> rfl,
   fun _ => rfl,
   fun _ => rfl,
   by simp [pdf_results_methods], by simp [pdf_results_methods]⟩

/-- C10: the bullet-glyph replacement touches only the inference branch —
the stored result there is the conversion of the model response after
replacement, while on the oversized branch the stored result is the
conversion of the fixed rejection message itself, unmodified. -/
theorem C10_bullet_replacement_scope (c : Collaborators) (form : FormData)
    (t : String) (st : ServerState) (pages : List String)
    (hv : validateOnSubmit form = true)
    (hl : c.load_and_split t = Except.ok pages) :
    (∀ r, wordCount (String.intercalate "\n\n" pages) < 18500 →
      c.generate_content
          (promptText (text_input_data form) (String.intercalate "\n\n" pages))
        = Except.ok r →
      sessionGet (index c form t st).1.session "markdown_response"
        = some (markdown (replaceBullets r))) ∧
    (18500 ≤ wordCount (String.intercalate "\n\n" pages) →
      sessionGet (index c form t st).1.session "markdown_response"
        = some (markdown rejectionMessage)) := by
  constructor
  · intro r hw hg
    rw [index_infer_ok c form t st pages r hv hl hw hg]
    simp [finishRequest, sessionGet, sessionSetKey, List.lookup]
  · intro h
    have hw : ¬ wordCount (String.intercalate "\n\n" pages) < 18500 := by omega
    rw [index_oversized c form t st pages hv hl hw]
    simp [finishRequest, sessionGet, sessionSetKey, List.lookup]

/-- C10 witness: a model response containing the mis-decoded bullet is
stored with the bullet replaced by two spaces and an asterisk. -/
theorem C10_bullet_replacement_scope_witness :
    sessionGet (index bulletCollab form0 "tmpF" st0).1.session
        "markdown_response"
      = some (markdown (replaceBullets "â€¢ first point")) ∧
    replaceBullets "â€¢ first point" = "  * first point" :=
  ⟨(C10_bullet_replacement_scope bulletCollab form0 "tmpF" st0 ["hello world"]
      (by decide) rfl).1 "â€¢ first point" (by decide) rfl,
   by decide⟩

end SummarizerApp
